import Mathlib

/-!
Verification of the load-generation engine of `api_stress_tester.py`
(`APITester`): the request executor (`make_request`), the aggregator
(the locked update of `self.results`), the paced scheduler
(`run_stress_test`) and the criteria evaluator (`log_results`).

Latencies and thresholds are modelled as exact rationals, status codes
and counters as naturals.  Network interaction is modelled by an
explicit transport result per request; the scheduler's random endpoint
choice is modelled by an index oracle.
-/

namespace StressTest

/-- One entry of `API_CONFIG['endpoints']`:
`{'method': ..., 'path': ..., 'expected_status': ...}`. -/
structure Endpoint where
  method : String
  path : String
  expected_status : Nat
deriving DecidableEq, Repr

/-- What the HTTP layer produced for a single send attempt: either a
response with a status code, or a raised exception (timeout, connection
error, ...) carrying its message. -/
inductive TransportResult where
  | response (status : Nat)
  | error (msg : String)
deriving DecidableEq, Repr

/-- One element of `self.results['errors']`: either the
`expected`/`actual` record appended on an unexpected status, or the
`error` record appended in the `except` branch. -/
inductive ErrorRecord where
  | statusMismatch (method path : String) (expected actual : Nat) (response_time : ℚ)
  | exception (method path : String) (error : String) (response_time : ℚ)
deriving DecidableEq, Repr

/-- The `self.results` dictionary of `APITester`. -/
structure Results where
  total_requests : Nat
  successful_requests : Nat
  failed_requests : Nat
  response_times : List ℚ
  errors : List ErrorRecord
deriving DecidableEq, Repr

/-- `self.results` as initialised in `APITester.__init__`. -/
def initResults : Results :=
  { total_requests := 0
    successful_requests := 0
    failed_requests := 0
    response_times := []
    errors := [] }

/-- The outcome `make_request` hands to the locked recording section:
either a response was received (with its status and measured latency),
or an exception was caught (with its message and measured latency). -/
inductive Outcome where
  | ok (ep : Endpoint) (status : Nat) (latency : ℚ)
  | err (ep : Endpoint) (msg : String) (latency : ℚ)
deriving DecidableEq, Repr

/-- The update of `self.results` performed under `self.lock` by
`make_request`: lines 119-135 for a received response, lines 139-147
for a caught exception. -/
def record (r : Results) (o : Outcome) : Results :=
  match o with
  | .ok ep status latency =>
      if status = ep.expected_status then
        { r with
            total_requests := r.total_requests + 1
            response_times := r.response_times ++ [latency]
            successful_requests := r.successful_requests + 1 }
      else
        { r with
            total_requests := r.total_requests + 1
            response_times := r.response_times ++ [latency]
            failed_requests := r.failed_requests + 1
            errors := r.errors ++
              [.statusMismatch ep.method ep.path ep.expected_status status latency] }
  | .err ep msg latency =>
      { r with
          total_requests := r.total_requests + 1
          failed_requests := r.failed_requests + 1
          errors := r.errors ++ [.exception ep.method ep.path msg latency] }

/-- The methods `make_request` dispatches on (`GET`/`POST`/`PUT`/`DELETE`);
any other method reaches the `raise ValueError` arm. -/
def supportedMethod (m : String) : Bool :=
  m = "GET" || m = "POST" || m = "PUT" || m = "DELETE"

/-- `APITester.make_request` for one endpoint, given the transport's
result for the single send it performs and the measured latency.  An
unsupported method raises `ValueError`, which the surrounding
`except Exception` turns into an error outcome without any send. -/
def make_request (ep : Endpoint) (t : TransportResult) (latency : ℚ) : Outcome :=
  if supportedMethod ep.method then
    match t with
    | .response s => .ok ep s latency
    | .error msg => .err ep msg latency
  else
    .err ep ("Unsupported method: " ++ ep.method) latency

/-- `make_request` lifted to an attempt oracle: the code performs
exactly one `self.session` call, so only attempt `0` is consulted. -/
def makeRequestAttempts (ep : Endpoint) (attempts : Nat → TransportResult)
    (latency : ℚ) : Outcome :=
  make_request ep (attempts 0) latency

/-- Did the outcome receive a response (so a latency sample is appended
to `response_times`)? -/
def hasResponse : Outcome → Bool
  | .ok _ _ _ => true
  | .err _ _ _ => false

/-- Is the outcome counted in `successful_requests`? -/
def isSuccess : Outcome → Bool
  | .ok ep s _ => s = ep.expected_status
  | .err _ _ _ => false

/-- `API_SUCCESS_CRITERIA` from `api_config.py`: the three thresholds
checked by `log_results`. -/
structure Criteria where
  success_rate_percent : ℚ
  response_time_ms : ℚ
  max_error_rate_percent : ℚ
deriving DecidableEq, Repr

/-- The configured thresholds of `API_SUCCESS_CRITERIA`. -/
def API_SUCCESS_CRITERIA : Criteria :=
  { success_rate_percent := 99
    response_time_ms := 2000
    max_error_rate_percent := 1 }

/-- The retry-related fields of `HTTP_CONFIG` in `api_config.py`. -/
structure HttpConfig where
  timeout_seconds : Nat
  max_retries : Nat
  retry_delay_seconds : Nat
deriving DecidableEq, Repr

/-- `HTTP_CONFIG` as configured in `api_config.py`. -/
def HTTP_CONFIG : HttpConfig :=
  { timeout_seconds := 10, max_retries := 3, retry_delay_seconds := 1 }

/-- Python's `max(l)` over a non-empty list, and the `else 0` fallback
`log_results` uses for an empty one. -/
def maxOrZero : List ℚ → ℚ
  | [] => 0
  | x :: xs => xs.foldl max x

/-- The report assembled and logged by `log_results` once
`total_requests > 0`: the computed rates and latency statistics, the
result of each of the three criteria checks, and the final
`criteria_met` flag. -/
structure Report where
  success_rate : ℚ
  error_rate : ℚ
  avg_response_time : ℚ
  max_response_time : ℚ
  success_rate_ok : Bool
  avg_time_ok : Bool
  error_rate_ok : Bool
  criteria_met : Bool
deriving DecidableEq, Repr

/-- `APITester.log_results`: on `total_requests == 0` it logs
"No requests were made!" and returns (`none`); otherwise it computes
the rates and latency statistics, checks the three thresholds (each
failing check clears `criteria_met`) and reports. -/
def log_results (r : Results) (c : Criteria) : Option Report :=
  if r.total_requests = 0 then
    none
  else
    let success_rate : ℚ :=
      ((r.successful_requests : ℚ) / (r.total_requests : ℚ)) * 100
    let error_rate : ℚ :=
      ((r.failed_requests : ℚ) / (r.total_requests : ℚ)) * 100
    let avg_response_time : ℚ :=
      if r.response_times.isEmpty then 0
      else r.response_times.sum / (r.response_times.length : ℚ)
    let max_response_time : ℚ := maxOrZero r.response_times
    let success_rate_ok := !decide (success_rate < c.success_rate_percent)
    let avg_time_ok := !decide (avg_response_time > c.response_time_ms)
    let error_rate_ok := !decide (error_rate > c.max_error_rate_percent)
    some
      { success_rate := success_rate
        error_rate := error_rate
        avg_response_time := avg_response_time
        max_response_time := max_response_time
        success_rate_ok := success_rate_ok
        avg_time_ok := avg_time_ok
        error_rate_ok := error_rate_ok
        criteria_met := success_rate_ok && avg_time_ok && error_rate_ok }

/-- A fallback endpoint (Python's `random.choice` is never asked on an
empty list in a configured run; the default is unreachable when the
endpoint list is non-empty). -/
def defaultEndpoint : Endpoint :=
  { method := "GET", path := "/posts", expected_status := 200 }

/-- `random.choice(endpoints)`: selection of one endpoint by an oracle
index, reduced modulo the list length (uniform choice with
replacement is modelled by the oracle). -/
def choice (endpoints : List Endpoint) (k : Nat) : Endpoint :=
  endpoints.getD (k % endpoints.length) defaultEndpoint

/-- The submissions of the scheduler loop of `run_stress_test`: `iters`
iterations of the `while time.time() < end_time` loop, each submitting
exactly `requests_per_second` requests, the endpoint of the `i`-th
submission being `random.choice(endpoints)` driven by the pick
oracle. -/
def scheduleSubmissions (endpoints : List Endpoint) (rate iters : Nat)
    (pick : Nat → Nat) : List Endpoint :=
  (List.range (iters * rate)).map fun i => choice endpoints (pick i)

/-- The outcomes produced by the worker pool for a list of submitted
endpoints: the `i`-th submission is executed by `make_request` against
the transport's result for request `i` with measured latency
`lat i`. -/
def runOutcomes (subs : List Endpoint) (transport : Nat → TransportResult)
    (lat : Nat → ℚ) : List Outcome :=
  subs.enum.map fun p => make_request p.2 (transport p.1) (lat p.1)

/-- `APITester.run_stress_test`: run the scheduler loop for `iters`
one-second batches, let the pool drain (the `with ThreadPoolExecutor`
block joins all submitted work), fold every outcome into the
aggregator, then call `log_results` on the final aggregate. -/
def run_stress_test (endpoints : List Endpoint) (rate iters : Nat)
    (pick : Nat → Nat) (transport : Nat → TransportResult) (lat : Nat → ℚ)
    (c : Criteria) : Results × Option Report :=
  let agg :=
    (runOutcomes (scheduleSubmissions endpoints rate iters pick) transport
      lat).foldl record initResults
  (agg, log_results agg c)

/-- The CriteriaEvaluator verdict as the specification words it:
`successRate = successCount/totalCount×100` and
`errorRate = failureCount/totalCount×100` exactly, `avgLatency` the
arithmetic mean and `maxLatency` the maximum of the recorded latencies,
each criterion (`successRate ≥ threshold`, `avgLatency ≤ threshold`,
`errorRate ≤ threshold`) evaluated independently, and
`overallPass` the logical AND of the three. -/
def specVerdict (r : Results) (c : Criteria) : Report :=
  let sr : ℚ := ((r.successful_requests : ℚ) / (r.total_requests : ℚ)) * 100
  let er : ℚ := ((r.failed_requests : ℚ) / (r.total_requests : ℚ)) * 100
  let avg : ℚ := r.response_times.sum / (r.response_times.length : ℚ)
  let mx : ℚ := (r.response_times.max?).getD 0
  { success_rate := sr
    error_rate := er
    avg_response_time := avg
    max_response_time := mx
    success_rate_ok := decide (c.success_rate_percent ≤ sr)
    avg_time_ok := decide (avg ≤ c.response_time_ms)
    error_rate_ok := decide (er ≤ c.max_error_rate_percent)
    criteria_met :=
      decide (c.success_rate_percent ≤ sr) && decide (avg ≤ c.response_time_ms) &&
        decide (er ≤ c.max_error_rate_percent) }

/-- The retry policy as the specification words it: on a
transport-level failure, retry up to `max_retries` further times (with
`retry_delay` between attempts, which does not affect the outcome
value) before yielding the final outcome.  `i` is the index of the
current attempt, `fuel` the number of retries still allowed. -/
def specRetryExecute (ep : Endpoint) (attempts : Nat → TransportResult)
    (lat : Nat → ℚ) : Nat → Nat → Outcome
  | i, fuel =>
    match attempts i, fuel with
    | .response s, _ => .ok ep s (lat i)
    | .error msg, 0 => .err ep msg (lat i)
    | .error _, fuel' + 1 => specRetryExecute ep attempts lat (i + 1) fuel'

/-- A transport whose first attempt times out and whose later attempts
succeed with status 200. -/
def flakyTransport : Nat → TransportResult :=
  fun i => if i = 0 then .error "timeout" else .response 200

/-- A concrete aggregate: 100 requests, 97 successful, 3 failed, with
three recorded latencies (the spec's worked examples). -/
def sampleResults : Results :=
  { total_requests := 100
    successful_requests := 97
    failed_requests := 3
    response_times := [100, 200, 50]
    errors := [] }

/-- An endpoint whose method is not one of GET/POST/PUT/DELETE. -/
def patchEndpoint : Endpoint :=
  { method := "PATCH", path := "/posts/1", expected_status := 200 }

/-- `run_stress_test` including the worker-pool creation of line 175:
`ThreadPoolExecutor(max_workers=concurrent_users)`.  The constructor's
guard is modelled from the Python standard library: it raises
`ValueError("max_workers must be greater than 0")` for a
non-positive `max_workers`, before the scheduler loop starts and hence
before any request is issued; with a positive `max_workers` the run
proceeds as `run_stress_test`. -/
def run_stress_test_pool (endpoints : List Endpoint)
    (concurrency rate iters : Nat) (pick : Nat → Nat)
    (transport : Nat → TransportResult) (lat : Nat → ℚ) (c : Criteria) :
    Except String (Results × Option Report) :=
  if concurrency = 0 then
    .error "max_workers must be greater than 0"
  else
    .ok (run_stress_test endpoints rate iters pick transport lat c)

/-! ### Basic facts about a single `record` step -/

theorem record_total (r : Results) (o : Outcome) :
    (record r o).total_requests = r.total_requests + 1 := by
  cases o with
  | ok ep s l => simp only [record]; split <;> rfl
  | err ep m l => rfl

theorem record_succ (r : Results) (o : Outcome) :
    (record r o).successful_requests =
      r.successful_requests + (if isSuccess o then 1 else 0) := by
  cases o with
  | ok ep s l =>
      simp only [record, isSuccess]
      by_cases h : s = ep.expected_status <;> simp [h]
  | err ep m l => simp [record, isSuccess]

theorem record_fail (r : Results) (o : Outcome) :
    (record r o).failed_requests =
      r.failed_requests + (if isSuccess o then 0 else 1) := by
  cases o with
  | ok ep s l =>
      simp only [record, isSuccess]
      by_cases h : s = ep.expected_status <;> simp [h]
  | err ep m l => simp [record, isSuccess]

theorem record_resp_len (r : Results) (o : Outcome) :
    (record r o).response_times.length =
      r.response_times.length + (if hasResponse o then 1 else 0) := by
  cases o with
  | ok ep s l =>
      simp only [record, hasResponse]
      split <;> simp
  | err ep m l => simp [record, hasResponse]

/-! ### Facts about folding `record` over a list of outcomes -/

theorem foldl_record_total (l : List Outcome) (r : Results) :
    (l.foldl record r).total_requests = r.total_requests + l.length := by
  induction l generalizing r with
  | nil => simp
  | cons o t ih =>
      simp only [List.foldl_cons, List.length_cons, ih, record_total]
      omega

theorem foldl_record_succ (l : List Outcome) (r : Results) :
    (l.foldl record r).successful_requests =
      r.successful_requests + l.countP isSuccess := by
  induction l generalizing r with
  | nil => simp
  | cons o t ih =>
      simp only [List.foldl_cons, ih, record_succ, List.countP_cons]
      by_cases h : isSuccess o <;> (simp [h]; try omega)

theorem foldl_record_fail (l : List Outcome) (r : Results) :
    (l.foldl record r).failed_requests =
      r.failed_requests + l.countP (fun o => !isSuccess o) := by
  induction l generalizing r with
  | nil => simp
  | cons o t ih =>
      simp only [List.foldl_cons, ih, record_fail, List.countP_cons]
      by_cases h : isSuccess o <;> (simp [h]; try omega)

theorem foldl_record_resp_len (l : List Outcome) (r : Results) :
    (l.foldl record r).response_times.length =
      r.response_times.length + l.countP hasResponse := by
  induction l generalizing r with
  | nil => simp
  | cons o t ih =>
      simp only [List.foldl_cons, ih, record_resp_len, List.countP_cons]
      by_cases h : hasResponse o <;> (simp [h]; try omega)

theorem countP_bool_split {α : Type} (p : α → Bool) (l : List α) :
    l.countP p + l.countP (fun a => !p a) = l.length := by
  induction l with
  | nil => simp
  | cons a t ih =>
      by_cases h : p a <;> simp [List.countP_cons, h] <;> omega

theorem foldl_max_eq_or_mem (xs : List ℚ) (a : ℚ) :
    xs.foldl max a = a ∨ xs.foldl max a ∈ xs := by
  induction xs generalizing a with
  | nil => exact Or.inl rfl
  | cons x t ih =>
      simp only [List.foldl_cons]
      rcases ih (max a x) with h | h
      · rcases max_choice a x with hm | hm
        · exact Or.inl (h.trans hm)
        · exact Or.inr (by rw [h, hm]; exact List.mem_cons_self _ _)
      · exact Or.inr (List.mem_cons_of_mem _ h)

theorem le_foldl_max (xs : List ℚ) (a : ℚ) :
    a ≤ xs.foldl max a ∧ ∀ x ∈ xs, x ≤ xs.foldl max a := by
  induction xs generalizing a with
  | nil => exact ⟨le_refl a, by simp⟩
  | cons y t ih =>
      simp only [List.foldl_cons]
      obtain ⟨h1, h2⟩ := ih (max a y)
      refine ⟨le_trans (le_max_left a y) h1, ?_⟩
      intro x hx
      rcases List.mem_cons.1 hx with rfl | hx
      · exact le_trans (le_max_right a x) h1
      · exact h2 x hx

theorem maxOrZero_mem (l : List ℚ) (h : l ≠ []) : maxOrZero l ∈ l := by
  cases l with
  | nil => exact absurd rfl h
  | cons x xs =>
      rcases foldl_max_eq_or_mem xs x with h1 | h1
      · rw [maxOrZero, h1]; exact List.mem_cons_self _ _
      · exact List.mem_cons_of_mem _ h1

theorem le_maxOrZero (l : List ℚ) (x : ℚ) (hx : x ∈ l) : x ≤ maxOrZero l := by
  cases l with
  | nil => cases hx
  | cons y ys =>
      rcases List.mem_cons.1 hx with rfl | hmem
      · exact (le_foldl_max ys x).1
      · exact (le_foldl_max ys y).2 x hmem

theorem maxOrZero_eq_max?_getD (l : List ℚ) : maxOrZero l = (l.max?).getD 0 := by
  cases l <;> rfl

theorem bool_not_lt (a b : ℚ) : (!decide (a < b)) = decide (b ≤ a) := by
  rw [← decide_not]
  exact decide_eq_decide.mpr not_lt

/-! ### Claim theorems -/

/-- C2: after recording any sequence of outcomes, the aggregate
satisfies `total_requests = successful_requests + failed_requests`
(every outcome increments the total and exactly one of the two other
counters), and for `N` recorded outcomes `total_requests = N`.  As the
sequence is arbitrary, the invariant holds at every observation point
between completed `record` operations. -/
theorem recorded_total_eq_success_add_failed (outcomes : List Outcome) :
    (outcomes.foldl record initResults).total_requests =
      (outcomes.foldl record initResults).successful_requests +
        (outcomes.foldl record initResults).failed_requests ∧
    (outcomes.foldl record initResults).total_requests = outcomes.length := by
  have hc := countP_bool_split isSuccess outcomes
  rw [foldl_record_total, foldl_record_succ, foldl_record_fail]
  simp [initResults]
  omega

/-- C1 counterexample: recording a single transport-error outcome
increments `total_requests` but appends no latency sample, so the
length of `response_times` differs from `total_requests`. -/
theorem latency_sample_lost_on_transport_error :
    ([Outcome.err defaultEndpoint "timeout" 5].foldl record
        initResults).response_times.length ≠
      ([Outcome.err defaultEndpoint "timeout" 5].foldl record
        initResults).total_requests := by
  decide

/-- C1 amended: a latency sample is appended exactly for the outcomes
that received a response; transport-error outcomes increment the
counters and append an error record but no latency sample, so
`response_times.length` plus the number of transport-error outcomes
equals `total_requests`. -/
theorem response_times_length_eq_total_sub_errors (outcomes : List Outcome) :
    (outcomes.foldl record initResults).response_times.length +
        outcomes.countP (fun o => !hasResponse o) =
      (outcomes.foldl record initResults).total_requests := by
  have hc := countP_bool_split hasResponse outcomes
  rw [foldl_record_resp_len, foldl_record_total]
  simp [initResults]
  omega

/-- C3: `log_results` invoked with `total_requests = 0` signals the
distinct no-data condition (`none`): it computes no rate and reports
neither a pass nor a failure verdict. -/
theorem log_results_no_data (r : Results) (c : Criteria)
    (h : r.total_requests = 0) : log_results r c = none := by
  simp [log_results, h]

/-- Witness for C3 at the initial (all-zero) aggregate and the
configured criteria. -/
theorem log_results_no_data_witness :
    initResults.total_requests = 0 ∧
      log_results initResults API_SUCCESS_CRITERIA = none :=
  ⟨rfl, log_results_no_data initResults API_SUCCESS_CRITERIA rfl⟩

/-- C7: `make_request` is total — for every endpoint and every
transport result the outcome is recorded (the total grows by one), and
every raised exception (transport error, or the `ValueError` for an
unsupported method) becomes an error outcome whose recording appends a
failure with the error message and the measured latency; nothing
propagates to the scheduler loop. -/
theorem make_request_catches_exceptions (ep : Endpoint) (msg : String)
    (lat : ℚ) (r : Results) :
    (∀ t : TransportResult,
      (record r (make_request ep t lat)).total_requests =
        r.total_requests + 1) ∧
    ∃ m : String,
      make_request ep (.error msg) lat = .err ep m lat ∧
      record r (.err ep m lat) =
        { r with
            total_requests := r.total_requests + 1
            failed_requests := r.failed_requests + 1
            errors := r.errors ++ [.exception ep.method ep.path m lat] } := by
  refine ⟨fun t => record_total r _, ?_⟩
  by_cases h : supportedMethod ep.method
  · exact ⟨msg, by simp [make_request, h], rfl⟩
  · exact ⟨"Unsupported method: " ++ ep.method, by simp [make_request, h], rfl⟩

/-- C4: for every aggregate with `total_requests > 0`, `log_results`
produces exactly the spec-side verdict: `successRate` and `errorRate`
computed exactly as `count/total × 100`, `avgLatency` the arithmetic
mean, `maxLatency` the maximum of the recorded latencies, each
criterion passing independently iff its `≥`/`≤` comparison holds, and
`criteria_met` the logical AND of the three; moreover the reported
maximum is a member of and an upper bound for the recorded latencies
whenever any exist. -/
theorem log_results_meets_spec (r : Results) (c : Criteria)
    (h : r.total_requests ≠ 0) :
    log_results r c = some (specVerdict r c) ∧
    (r.response_times ≠ [] →
      (specVerdict r c).max_response_time ∈ r.response_times ∧
      ∀ x ∈ r.response_times, x ≤ (specVerdict r c).max_response_time) := by
  constructor
  · simp only [log_results, specVerdict, if_neg h, maxOrZero_eq_max?_getD,
      gt_iff_lt, bool_not_lt]
    rcases hl : r.response_times with _ | ⟨x, xs⟩ <;> simp [hl]
  · intro hne
    have hm : (specVerdict r c).max_response_time = maxOrZero r.response_times := by
      simp [specVerdict, maxOrZero_eq_max?_getD]
    rw [hm]
    exact ⟨maxOrZero_mem _ hne, fun x hx => le_maxOrZero _ x hx⟩

/-- Witness for C4 at the spec's worked example (97 successes, 3
failures, latencies 100/200/50 against the configured thresholds):
success rate exactly 97, error rate exactly 3, maximum 200, and the
average-latency criterion passes. -/
theorem log_results_meets_spec_witness :
    sampleResults.total_requests ≠ 0 ∧
    log_results sampleResults API_SUCCESS_CRITERIA =
      some (specVerdict sampleResults API_SUCCESS_CRITERIA) ∧
    (specVerdict sampleResults API_SUCCESS_CRITERIA).success_rate = 97 ∧
    (specVerdict sampleResults API_SUCCESS_CRITERIA).error_rate = 3 ∧
    (specVerdict sampleResults API_SUCCESS_CRITERIA).max_response_time = 200 ∧
    (specVerdict sampleResults API_SUCCESS_CRITERIA).avg_time_ok = true := by
  refine ⟨by decide,
    (log_results_meets_spec sampleResults API_SUCCESS_CRITERIA (by decide)).1,
    ?_, ?_, ?_, ?_⟩
  · simp only [specVerdict, sampleResults]
    norm_num
  · simp only [specVerdict, sampleResults]
    norm_num
  · simp only [specVerdict, sampleResults, List.max?]
    norm_num [max_def]
  · simp only [specVerdict, sampleResults, API_SUCCESS_CRITERIA,
      decide_eq_true_eq]
    norm_num

/-- C10: when `total_requests > 0` but no latency was recorded (every
outcome was a transport error), `log_results` reports average and
maximum response time as `0` rather than signalling missing latency
data, and the average-latency criterion passes for every non-negative
threshold. -/
theorem log_results_empty_latencies (r : Results) (c : Criteria)
    (h : r.total_requests ≠ 0) (he : r.response_times = [])
    (hc : 0 ≤ c.response_time_ms) :
    (log_results r c).map Report.avg_response_time = some 0 ∧
    (log_results r c).map Report.max_response_time = some 0 ∧
    (log_results r c).map Report.avg_time_ok = some true := by
  have hd : decide (c.response_time_ms < 0) = false :=
    decide_eq_false (not_lt.mpr hc)
  simp [log_results, if_neg h, he, maxOrZero, gt_iff_lt, hd]

/-- Witness for C10 at the aggregate produced by recording one
transport-error outcome, against the configured criteria. -/
theorem log_results_empty_latencies_witness :
    ([Outcome.err defaultEndpoint "boom" 7].foldl record
        initResults).total_requests ≠ 0 ∧
    (log_results
        ([Outcome.err defaultEndpoint "boom" 7].foldl record initResults)
        API_SUCCESS_CRITERIA).map Report.avg_time_ok = some true :=
  ⟨by decide,
   (log_results_empty_latencies _ API_SUCCESS_CRITERIA (by decide) (by decide)
     (by decide)).2.2⟩

/-- C5 counterexample: a run over an endpoint whose method is `PATCH`
is not rejected before the run starts; the request is issued, the
`ValueError` raised inside `make_request` is caught, and the run
records it as a per-request failure outcome. -/
theorem invalid_method_not_rejected_before_run :
    (run_stress_test [patchEndpoint] 1 1 (fun _ => 0)
        (fun _ => .response 200) (fun _ => 5) API_SUCCESS_CRITERIA).1 =
      { total_requests := 1
        successful_requests := 0
        failed_requests := 1
        response_times := []
        errors := [.exception "PATCH" "/posts/1" "Unsupported method: PATCH" 5] } := by
  rfl

/-- C5 amended: only the concurrency bound is validated before the run
starts — creating the worker pool with zero workers raises the fatal
`ValueError` of `ThreadPoolExecutor` before any request is issued,
while a positive bound runs normally.  An endpoint with an unsupported
method is detected only inside `make_request` during the run, where
the raised `ValueError` is caught and converted into a per-request
failure outcome; and a zero rate is not rejected at all — the run
merely issues zero requests. -/
theorem invalid_method_becomes_failure_outcome (ep : Endpoint)
    (t : TransportResult) (lat : ℚ)
    (h : supportedMethod ep.method = false) :
    make_request ep t lat =
      .err ep ("Unsupported method: " ++ ep.method) lat ∧
    (∀ pick transport l c,
      (run_stress_test [ep] 0 1 pick transport l c).1 = initResults) ∧
    (∀ pick transport l c,
      run_stress_test_pool [ep] 0 1 1 pick transport l c =
        .error "max_workers must be greater than 0") ∧
    (∀ conc pick transport l c, conc ≠ 0 →
      run_stress_test_pool [ep] conc 1 1 pick transport l c =
        .ok (run_stress_test [ep] 1 1 pick transport l c)) := by
  refine ⟨by simp [make_request, h], fun pick transport l c => rfl,
    fun pick transport l c => rfl, ?_⟩
  intro conc pick transport l c hc
  simp [run_stress_test_pool, hc]

/-- Witness for C5's amended claim at the `PATCH` endpoint: the
executor converts the unsupported method into a failure outcome during
the run, while a zero-concurrency pool is rejected before any request
is issued. -/
theorem invalid_method_becomes_failure_outcome_witness :
    supportedMethod patchEndpoint.method = false ∧
    make_request patchEndpoint (.response 200) 5 =
      .err patchEndpoint "Unsupported method: PATCH" 5 ∧
    run_stress_test_pool [patchEndpoint] 0 1 1 (fun _ => 0)
        (fun _ => .response 200) (fun _ => 5) API_SUCCESS_CRITERIA =
      .error "max_workers must be greater than 0" :=
  ⟨rfl,
   (invalid_method_becomes_failure_outcome patchEndpoint (.response 200) 5
     rfl).1,
   (invalid_method_becomes_failure_outcome patchEndpoint (.response 200) 5
     rfl).2.2.1 (fun _ => 0) (fun _ => .response 200) (fun _ => 5)
     API_SUCCESS_CRITERIA⟩

/-- C6 counterexample: with the configured `max_retries = 3`, a request
whose first attempt fails with a timeout but whose second attempt would
return the expected status still yields a failure outcome — the
executor performs no retry, while the spec-side retry policy yields a
success outcome on the same transport. -/
theorem no_retry_performed :
    makeRequestAttempts defaultEndpoint flakyTransport 5 =
      .err defaultEndpoint "timeout" 5 ∧
    specRetryExecute defaultEndpoint flakyTransport (fun _ => 5) 0
        HTTP_CONFIG.max_retries =
      .ok defaultEndpoint 200 5 := by
  constructor <;> rfl

/-- C6 amended: `max_retries` and `retry_delay_seconds` are configured
in `HTTP_CONFIG` but never consulted: `make_request` performs exactly
one send attempt, so its outcome depends only on the transport's first
result, and a transport failure immediately yields the final failure
outcome (the error message, or the unsupported-method message when the
method never reaches the transport). -/
theorem make_request_single_attempt (ep : Endpoint)
    (a a' : Nat → TransportResult) (lat : ℚ) (h : a 0 = a' 0) :
    makeRequestAttempts ep a lat = makeRequestAttempts ep a' lat ∧
    ∀ msg, a 0 = .error msg →
      makeRequestAttempts ep a lat = .err ep msg lat ∨
      makeRequestAttempts ep a lat =
        .err ep ("Unsupported method: " ++ ep.method) lat := by
  constructor
  · simp [makeRequestAttempts, h]
  · intro msg hmsg
    by_cases hs : supportedMethod ep.method
    · exact Or.inl (by simp [makeRequestAttempts, make_request, hmsg, hs])
    · exact Or.inr (by simp [makeRequestAttempts, make_request, hs])

/-- Witness for C6's amended claim: the executor's outcome on the flaky
transport coincides with its outcome on a transport that always fails,
because only attempt 0 is ever consulted. -/
theorem make_request_single_attempt_witness :
    flakyTransport 0 = TransportResult.error "timeout" ∧
    makeRequestAttempts defaultEndpoint flakyTransport 5 =
      makeRequestAttempts defaultEndpoint (fun _ => .error "timeout") 5 :=
  ⟨rfl,
   (make_request_single_attempt defaultEndpoint flakyTransport
     (fun _ => .error "timeout") 5 rfl).1⟩

/-- C8: the scheduler's submission list has exactly
`iterations × requests_per_second` entries, the `i`-th entry being the
endpoint `random.choice` selects for draw `i` (indexing with
replacement into the configured list); and a run with rate 0 or with
duration 0 (zero iterations) issues no request: the aggregate stays
all-zero and the evaluation signals the no-data condition. -/
theorem scheduler_rate_and_zero_cases (endpoints : List Endpoint)
    (rate iters : Nat) (pick : Nat → Nat)
    (transport : Nat → TransportResult) (lat : Nat → ℚ) (c : Criteria) :
    (scheduleSubmissions endpoints rate iters pick).length = iters * rate ∧
    (∀ i, i < iters * rate →
      (scheduleSubmissions endpoints rate iters pick).getD i
          defaultEndpoint =
        endpoints.getD (pick i % endpoints.length) defaultEndpoint) ∧
    (rate = 0 ∨ iters = 0 →
      run_stress_test endpoints rate iters pick transport lat c =
        (initResults, none)) := by
  refine ⟨by simp [scheduleSubmissions], ?_, ?_⟩
  · intro i hi
    simp [scheduleSubmissions, choice, List.getD_eq_getElem?_getD,
      List.getElem?_map, List.getElem?_range, hi]
  · intro h0
    have hz : iters * rate = 0 := by
      rcases h0 with h | h <;> simp [h]
    simp [run_stress_test, scheduleSubmissions, runOutcomes, hz,
      log_results, initResults]

/-- Witness for C8: a concrete submission draw, and a rate-zero run
ending all-zero with the no-data verdict. -/
theorem scheduler_rate_and_zero_cases_witness :
    (0 : Nat) < 2 * 3 ∧
    (scheduleSubmissions [defaultEndpoint, patchEndpoint] 3 2
        (fun i => i)).getD 0 defaultEndpoint =
      [defaultEndpoint, patchEndpoint].getD (0 % 2) defaultEndpoint ∧
    run_stress_test [defaultEndpoint] 0 5 (fun i => i)
        (fun _ => .response 200) (fun _ => 1) API_SUCCESS_CRITERIA =
      (initResults, none) := by
  refine ⟨by decide, ?_, ?_⟩
  · exact (scheduler_rate_and_zero_cases [defaultEndpoint, patchEndpoint] 3 2
      (fun i => i) (fun _ => .response 200) (fun _ => 1)
      API_SUCCESS_CRITERIA).2.1 0 (by decide)
  · exact (scheduler_rate_and_zero_cases [defaultEndpoint] 0 5 (fun i => i)
      (fun _ => .response 200) (fun _ => 1) API_SUCCESS_CRITERIA).2.2
      (Or.inl rfl)

/-- C9: nothing is submitted beyond the scheduler's batches, and the
aggregate read by the evaluation is fully drained and independent of
recording order: for any permutation of the produced outcomes the final
aggregate accounts for every one of the `iterations × rate` submissions
and carries the same success and failure counts as the canonical order,
and `run_stress_test` evaluates `log_results` exactly on that final
aggregate. -/
theorem drain_before_evaluation (endpoints : List Endpoint)
    (rate iters : Nat) (pick : Nat → Nat)
    (transport : Nat → TransportResult) (lat : Nat → ℚ) (c : Criteria)
    (outs' : List Outcome)
    (hperm : (runOutcomes (scheduleSubmissions endpoints rate iters pick)
        transport lat).Perm outs') :
    (outs'.foldl record initResults).total_requests = iters * rate ∧
    (outs'.foldl record initResults).successful_requests =
      ((runOutcomes (scheduleSubmissions endpoints rate iters pick) transport
          lat).foldl record initResults).successful_requests ∧
    (outs'.foldl record initResults).failed_requests =
      ((runOutcomes (scheduleSubmissions endpoints rate iters pick) transport
          lat).foldl record initResults).failed_requests ∧
    run_stress_test endpoints rate iters pick transport lat c =
      ((runOutcomes (scheduleSubmissions endpoints rate iters pick) transport
          lat).foldl record initResults,
        log_results ((runOutcomes (scheduleSubmissions endpoints rate iters
          pick) transport lat).foldl record initResults) c) := by
  refine ⟨?_, ?_, ?_, rfl⟩
  · rw [foldl_record_total]
    have hlen : outs'.length = iters * rate := by
      rw [← hperm.length_eq]
      simp [runOutcomes, scheduleSubmissions]
    simp [initResults, hlen]
  · rw [foldl_record_succ, foldl_record_succ, hperm.countP_eq]
  · rw [foldl_record_fail, foldl_record_fail, hperm.countP_eq]

/-- Witness for C9: recording two outcomes in reverse order still
yields a total of `1 × 2`. -/
theorem drain_before_evaluation_witness :
    (((runOutcomes (scheduleSubmissions [defaultEndpoint] 2 1 (fun i => i))
          (fun _ => .response 200) (fun _ => 1)).reverse).foldl record
        initResults).total_requests = 1 * 2 :=
  (drain_before_evaluation [defaultEndpoint] 2 1 (fun i => i)
    (fun _ => .response 200) (fun _ => 1) API_SUCCESS_CRITERIA _
    (List.reverse_perm _).symm).1

end StressTest
